import Mathlib

/-!
Shallow embedding of the AI client module (`.github/scripts/ai_utils.py`)
of the debian_template_build repository, together with proofs about its
configuration loading, provider setup, model and parameter resolution,
prompt rendering, dispatch, fallback and usage-accounting behavior.

File-system reads, environment-variable reads and live provider API calls
are modelled as explicit parameters (outcome functions), so every code
path of the Python module is represented as a total Lean function.
-/

set_option autoImplicit false

/-- A Python dict with string keys, modelled as an association list in
which the entry closest to the head shadows later entries with the same
key (lookups scan from the head). -/
abbrev Dict (α : Type) : Type := List (String × α)

/-- Empty dict. -/
def Dict.empty {α : Type} : Dict α := []

/-- Lookup of a key, returning the value of the first matching entry. -/
def Dict.find? {α : Type} : Dict α → String → Option α
  | [], _ => none
  | (k, v) :: rest, key => if k = key then some v else Dict.find? rest key

/-- Python dict update semantics: in `Dict.merge a b` (Python
`\x7b**a, **b\x7d` or `a.update(b)`), the entries of `b` take precedence
over those of `a`, key by key. -/
def Dict.merge {α : Type} (a b : Dict α) : Dict α := b ++ a

/-- A scalar parameter value as it appears in the YAML configuration and
templates (numbers are modelled over the rationals). -/
inductive PVal where
  | num (q : ℚ)
  | str (s : String)
deriving DecidableEq

/-- Per-model pricing entry: dollars per 1000 input / output tokens. -/
structure Pricing where
  input : ℚ
  output : ℚ
deriving DecidableEq

/-- The per-provider section of the configuration document. -/
structure ProviderConfig where
  default_model : Option String
  models : Dict String
  parameters : Dict (Dict PVal)
  pricing : Dict Pricing
deriving DecidableEq

/-- The per-task section of the configuration document. -/
structure TaskConfig where
  complexity : Option String
deriving DecidableEq

/-- The configuration document loaded from `ai_config.yml`.  A missing
dict-valued key of the YAML document is modelled as the empty dict. -/
structure Config where
  provider_priority : List String
  providers : Dict ProviderConfig
  task_models : Dict TaskConfig
deriving DecidableEq

/-- The hardcoded minimal fallback configuration returned by
`AIClient._load_config` on a read or parse error. -/
def defaultConfig : Config :=
  { provider_priority := ["openai", "anthropic"]
    providers :=
      [ ("openai",
          { default_model := some "gpt-4o-mini"
            models := Dict.empty, parameters := Dict.empty, pricing := Dict.empty })
      , ("anthropic",
          { default_model := some "claude-3-5-haiku-20241022"
            models := Dict.empty, parameters := Dict.empty, pricing := Dict.empty }) ]
    task_models := Dict.empty }

/-- Python `a or b` on an optional string: `None` and the empty string are
falsy, so both fall through to `b`. -/
def pyOr (a b : Option String) : Option String :=
  match a with
  | some s => if s = "" then b else some s
  | none => b

/-- `AIClient.get_model_for_task`: resolve the model identifier for a
task under a provider (the provider argument defaults to the active
provider). -/
def get_model_for_task (config : Config) (active : Option String)
    (task : String) (provider : Option String) : Option String :=
  match pyOr provider active with
  | none => none
  | some p =>
    if p = "" then none
    else
      match Dict.find? config.providers p with
      | none => none
      | some provider_config =>
        let task_config := (Dict.find? config.task_models task).getD ⟨none⟩
        let complexity := task_config.complexity.getD "standard"
        (Dict.find? provider_config.models complexity).orElse
          (fun _ => provider_config.default_model)

/-- The hardcoded parameter defaults of `AIClient.get_model_parameters`. -/
def defaultParams : Dict PVal :=
  [ ("max_tokens", PVal.num 1500)
  , ("temperature", PVal.num (3 / 10))
  , ("timeout", PVal.num 30) ]

/-- The provider/model-specific parameter overrides read from the
configuration (`provider_config.get('parameters', \x7b\x7d).get(model, \x7b\x7d)`). -/
def provider_model_params (config : Config) (model provider : String) : Dict PVal :=
  let provider_config := (Dict.find? config.providers provider).getD
    { default_model := none, models := Dict.empty
      parameters := Dict.empty, pricing := Dict.empty }
  (Dict.find? provider_config.parameters model).getD Dict.empty

/-- `AIClient.get_model_parameters`: hardcoded defaults overridden by the
provider/model-specific parameter dict from configuration. -/
def get_model_parameters (config : Config) (model provider : String) : Dict PVal :=
  Dict.merge defaultParams (provider_model_params config model provider)

/-- `AIClient.estimate_cost`: per-1000-token pricing lookup, with `0.0`
on any missing pricing entry (the `KeyError`/`TypeError` catch). -/
def estimate_cost (config : Config) (provider model : String)
    (input_tokens output_tokens : ℕ) : ℚ :=
  match (Dict.find? config.providers provider).bind
      (fun pc => Dict.find? pc.pricing model) with
  | some pr => (input_tokens / 1000 : ℚ) * pr.input + (output_tokens / 1000 : ℚ) * pr.output
  | none => 0

/-- A Python exception as raised or caught by the AI client. -/
inductive PyError where
  | fileNotFound (msg : String)
  | valueError (msg : String)
  | keyError (key : String)
  | apiError (msg : String)
  | unsupportedProvider (p : String)
deriving DecidableEq

/-- The string rendering of an exception, as interpolated by
`print(f"... : \x7be\x7d")`.  A Python `KeyError` renders as the quoted
missing key. -/
def PyError.msg : PyError → String
  | .fileNotFound m => m
  | .valueError m => m
  | .keyError k => "\x27" ++ k ++ "\x27"
  | .apiError m => m
  | .unsupportedProvider p => "Unsupported provider: " ++ p

/-- One piece of a Python format string: literal text or a named
placeholder `\x7bname\x7d`. -/
inductive FmtPart where
  | lit (s : String)
  | var (name : String)
deriving DecidableEq

/-- A format string with named placeholders. -/
abbrev Fmt : Type := List FmtPart

/-- Python `fmt.format(**variables)`: substitutes each placeholder and
raises `KeyError` on a placeholder missing from `variables`. -/
def formatStr : Fmt → Dict String → Except PyError String
  | [], _ => Except.ok ""
  | FmtPart.lit s :: rest, vars => (formatStr rest vars).map (fun t => s ++ t)
  | FmtPart.var n :: rest, vars =>
    match Dict.find? vars n with
    | some v => (formatStr rest vars).map (fun t => v ++ t)
    | none => Except.error (PyError.keyError n)

/-- A prompt template document (`<task>.yml` in the prompts directory).
A missing `system_prompt` or `user_prompt` key is read as the empty
string by the code (`template.get(..., '')`). -/
structure Template where
  system_prompt : Option Fmt
  user_prompt : Option Fmt
  parameters : Dict PVal
deriving DecidableEq

/-- The contents of the prompts directory: for each present template
file, either its parsed document or a parse error. -/
abbrev TemplateStore : Type := Dict (Except String Template)

/-- `AIClient.load_prompt_template`: `FileNotFoundError` when the file is
absent, `ValueError` when the file exists but fails to load. -/
def load_prompt_template (store : TemplateStore) (template_name : String) :
    Except PyError Template :=
  match Dict.find? store template_name with
  | none => Except.error (PyError.fileNotFound
      ("Prompt template not found: " ++ template_name ++ ".yml"))
  | some (Except.error e) => Except.error (PyError.valueError
      ("Error loading template " ++ template_name ++ ": " ++ e))
  | some (Except.ok t) => Except.ok t

/-- The record returned by `AIClient.render_prompt`. -/
structure Rendered where
  system : String
  user : String
  template : Template
deriving DecidableEq

/-- `AIClient.render_prompt`: load the template, then substitute the
variables into the system and user prompt strings. -/
def render_prompt (store : TemplateStore) (template_name : String)
    (vars : Dict String) : Except PyError Rendered := do
  let template ← load_prompt_template store template_name
  let system ← formatStr (template.system_prompt.getD []) vars
  let user ← formatStr (template.user_prompt.getD []) vars
  Except.ok { system := system, user := user, template := template }

/-- Normalized token usage of one provider response. -/
structure Usage where
  prompt_tokens : ℕ
  completion_tokens : ℕ
  total_tokens : ℕ
deriving DecidableEq

/-- The normalized result record returned by every dispatch, successful
or fallback. -/
structure CallResult where
  content : Option String
  model : Option String
  provider : String
  usage : Option Usage
  error : Option String
  task : Option String
deriving DecidableEq

/-- `AIClient._fallback_response`. -/
def fallback_response (task_name : String) : CallResult :=
  { content := none
    model := none
    provider := "fallback"
    usage := none
    error := some "AI provider not available"
    task := some task_name }

/-- The request shape handed to the first provider SDK
(`client.chat.completions.create(**openai_params)`). -/
structure OpenAIRequest where
  model : String
  messages : List (String × String)
  max_tokens : PVal
  temperature : PVal
  response_format : Option PVal
deriving DecidableEq

/-- The response fields the dispatcher reads off the first provider. -/
structure OpenAIResponse where
  content : String
  prompt_tokens : ℕ
  completion_tokens : ℕ
  total_tokens : ℕ
deriving DecidableEq

/-- The request shape handed to the second provider SDK
(`client.messages.create(**anthropic_params)`). -/
structure AnthropicRequest where
  model : String
  messages : List (String × String)
  max_tokens : PVal
  temperature : PVal
  system : Option String
deriving DecidableEq

/-- The response fields the dispatcher reads off the second provider. -/
structure AnthropicResponse where
  content : String
  input_tokens : ℕ
  output_tokens : ℕ
deriving DecidableEq

/-- The live API boundary: each provider call either returns a response
object or raises (modelled as `Except.error msg`). -/
structure ApiEnv where
  openaiCall : OpenAIRequest → Except String OpenAIResponse
  anthropicCall : AnthropicRequest → Except String AnthropicResponse

/-- The request built for the first provider: the system prompt is
prepended as a message only when nonempty; `max_tokens` and
`temperature` are read from the resolved parameters with hardcoded
fallbacks; `response_format` is forwarded only when present. -/
def openai_request (model : String) (prompt_data : Rendered)
    (params : Dict PVal) : OpenAIRequest :=
  { model := model
    messages :=
      (if prompt_data.system ≠ "" then [("system", prompt_data.system)] else [])
        ++ [("user", prompt_data.user)]
    max_tokens := (Dict.find? params "max_tokens").getD (PVal.num 1500)
    temperature := (Dict.find? params "temperature").getD (PVal.num (3 / 10))
    response_format := Dict.find? params "response_format" }

/-- Normalization of the first provider response into a `CallResult`. -/
def normalize_openai (provider model : String) (r : OpenAIResponse) : CallResult :=
  { content := some r.content
    model := some model
    provider := provider
    usage := some ⟨r.prompt_tokens, r.completion_tokens, r.total_tokens⟩
    error := none
    task := none }

/-- The request built for the second provider: the system prompt rides
in a dedicated field (only when nonempty) rather than in the message
list. -/
def anthropic_request (model : String) (prompt_data : Rendered)
    (params : Dict PVal) : AnthropicRequest :=
  { model := model
    messages := [("user", prompt_data.user)]
    max_tokens := (Dict.find? params "max_tokens").getD (PVal.num 1500)
    temperature := (Dict.find? params "temperature").getD (PVal.num (3 / 10))
    system := if prompt_data.system ≠ "" then some prompt_data.system else none }

/-- Normalization of the second provider response into a `CallResult`:
the total token count is computed as input plus output. -/
def normalize_anthropic (provider model : String) (r : AnthropicResponse) : CallResult :=
  { content := some r.content
    model := some model
    provider := provider
    usage := some ⟨r.input_tokens, r.output_tokens, r.input_tokens + r.output_tokens⟩
    error := none
    task := none }

/-- `AIClient._make_api_call`: build the provider-specific request,
issue it, and normalize the response into a `CallResult`; an unknown
provider raises `ValueError("Unsupported provider: ...")`. -/
def make_api_call (env : ApiEnv) (provider model : String)
    (prompt_data : Rendered) (params : Dict PVal) : Except PyError CallResult :=
  if provider = "openai" then
    match env.openaiCall (openai_request model prompt_data params) with
    | Except.error e => Except.error (PyError.apiError e)
    | Except.ok r => Except.ok (normalize_openai provider model r)
  else if provider = "anthropic" then
    match env.anthropicCall (anthropic_request model prompt_data params) with
    | Except.error e => Except.error (PyError.apiError e)
    | Except.ok r => Except.ok (normalize_anthropic provider model r)
  else
    Except.error (PyError.unsupportedProvider provider)

/-- The mutable state built up by `AIClient._setup_clients`, plus ghost
observations (`attempts` records each handle construction the loop
actually tried, `logs` records the printed warnings). -/
structure SetupState where
  clients : List String
  active : Option String
  attempts : List String
  logs : List String
deriving DecidableEq

/-- Dict-key insertion for the opaque handle registry: handles are not
modelled, so only the key set is kept (re-insertion of an existing key
overwrites the handle and leaves the key set unchanged). -/
def addKey (keys : List String) (k : String) : List String :=
  if keys.contains k then keys else keys ++ [k]

/-- The credential environment variable the setup loop reads for a
provider. -/
def cred_for (env : String → Option String) (p : String) : Option String :=
  if p = "openai" then env "OPENAI_API_KEY"
  else if p = "anthropic" then env "ANTHROPIC_API_KEY"
  else none

/-- One iteration of the `_setup_clients` loop body: `env` is the
process environment, `ctorOk p` tells whether constructing the handle
for provider `p` succeeds or raises. -/
def setupStep (env : String → Option String) (ctorOk : String → Bool)
    (s : SetupState) (provider : String) : SetupState :=
  if provider = "openai" then
    match env "OPENAI_API_KEY" with
    | some _ =>
      if ctorOk "openai" then
        { s with
          clients := addKey s.clients "openai"
          active := if s.active = none then some "openai" else s.active
          attempts := s.attempts ++ ["openai"] }
      else
        { s with
          attempts := s.attempts ++ ["openai"]
          logs := s.logs ++ ["Warning: OpenAI client failed"] }
    | none => s
  else if provider = "anthropic" then
    match env "ANTHROPIC_API_KEY" with
    | some _ =>
      if ctorOk "anthropic" then
        { s with
          clients := addKey s.clients "anthropic"
          active := if s.active = none then some "anthropic" else s.active
          attempts := s.attempts ++ ["anthropic"] }
      else
        { s with
          attempts := s.attempts ++ ["anthropic"]
          logs := s.logs ++ ["Warning: Anthropic client failed"] }
    | none => s
  else s

/-- `AIClient._setup_clients`: iterate the configured provider priority
list over the loop body, starting from the empty registry. -/
def setup_clients (priority : List String) (env : String → Option String)
    (ctorOk : String → Bool) : SetupState :=
  priority.foldl (setupStep env ctorOk) ⟨[], none, [], []⟩

/-- The usage accumulator (`AIClient.usage_stats`). -/
structure UsageStats where
  requests : ℕ
  tokens_used : ℕ
  estimated_cost : ℚ
deriving DecidableEq

/-- The state of one `AIClient` instance after construction.  The
template store stands for the contents of the prompts directory. -/
structure AIClient where
  config : Config
  clients : List String
  active_provider : Option String
  templates : TemplateStore
  usage_stats : UsageStats

/-- Outcome of reading and YAML-parsing the configuration file. -/
inductive ReadOutcome where
  | ok (c : Config)
  | err (msg : String)
deriving DecidableEq

/-- `AIClient._find_config_file`: raises `FileNotFoundError` when the
well-known file next to the scripts is absent. -/
def find_config_file (wellKnownExists : Bool) : Except PyError String :=
  if wellKnownExists then Except.ok "ai_config.yml"
  else Except.error (PyError.fileNotFound "AI config file not found: ai_config.yml")

/-- `AIClient._load_config`: any read or parse error degrades to the
hardcoded minimal default configuration. -/
def load_config (read : ReadOutcome) : Config :=
  match read with
  | ReadOutcome.ok c => c
  | ReadOutcome.err _ => defaultConfig

/-- The path resolution at the top of `AIClient.__init__`:
`config_path or self._find_config_file()` (the discovery step raises
when the well-known file is absent). -/
def resolve_config_path (config_path : Option String) (wellKnownExists : Bool) :
    Except PyError String :=
  match config_path with
  | some p => if p = "" then find_config_file wellKnownExists else Except.ok p
  | none => find_config_file wellKnownExists

/-- `AIClient.__init__`: resolve the configuration path, load the
configuration, and set up the provider registry.  `read` models reading
and parsing a file at a path; `templates` models the prompts directory
found next to the configuration file. -/
def AIClient.init (config_path : Option String) (wellKnownExists : Bool)
    (read : String → ReadOutcome) (env : String → Option String)
    (ctorOk : String → Bool) (templates : TemplateStore) :
    Except PyError AIClient := do
  let path ← resolve_config_path config_path wellKnownExists
  let config := load_config (read path)
  let s := setup_clients config.provider_priority env ctorOk
  Except.ok
    { config := config
      clients := s.clients
      active_provider := s.active
      templates := templates
      usage_stats := ⟨0, 0, 0⟩ }

/-- The parameter dict actually sent by `call_ai`: resolved model
parameters overridden by the template-specific parameter dict
(`params.update(template_params)`). -/
def resolve_call_params (config : Config) (model provider : String)
    (template : Template) : Dict PVal :=
  Dict.merge (get_model_parameters config model provider) template.parameters

/-- The body of the `try` block of `AIClient.call_ai`: render the
prompt, resolve model and parameters, dispatch, and update the usage
accumulator.  Any `Except.error` here is what the blanket
`except Exception` of the Python code catches. -/
def call_ai_body (c : AIClient) (env : ApiEnv) (task_name : String)
    (template_variables : Dict String) (provider : String) :
    Except PyError (CallResult × UsageStats) := do
  let prompt_data ← render_prompt c.templates task_name template_variables
  match get_model_for_task c.config c.active_provider task_name (some provider) with
  | none => Except.ok (fallback_response task_name, c.usage_stats)
  | some model =>
    let params := resolve_call_params c.config model provider prompt_data.template
    let result ← make_api_call env provider model prompt_data params
    let stats1 := { c.usage_stats with requests := c.usage_stats.requests + 1 }
    let stats2 :=
      match result.usage with
      | some u =>
        { stats1 with
          tokens_used := stats1.tokens_used + u.total_tokens
          estimated_cost := stats1.estimated_cost +
            estimate_cost c.config provider model u.prompt_tokens u.completion_tokens }
      | none => stats1
    Except.ok (result, stats2)

/-- The observable outcome of one `call_ai` invocation: the returned
result, the usage accumulator afterwards, the printed warning lines, and
(as a ghost observation) the exception caught by the blanket handler,
if any. -/
structure CallOutcome where
  result : CallResult
  stats : UsageStats
  logs : List String
  caught : Option PyError
deriving DecidableEq

/-- `AIClient.call_ai`: short-circuit to the fallback result when no
usable provider is selected, otherwise run the pipeline under the
blanket exception handler that converts every raised exception into a
fallback result plus a warning line. -/
def call_ai (c : AIClient) (env : ApiEnv) (task_name : String)
    (template_variables : Dict String) (provider : Option String) : CallOutcome :=
  match pyOr provider c.active_provider with
  | none => ⟨fallback_response task_name, c.usage_stats, [], none⟩
  | some p =>
    if p = "" ∨ ¬ c.clients.contains p then
      ⟨fallback_response task_name, c.usage_stats, [], none⟩
    else
      match call_ai_body c env task_name template_variables p with
      | Except.ok (result, stats) => ⟨result, stats, [], none⟩
      | Except.error e =>
        ⟨fallback_response task_name, c.usage_stats,
          ["AI call failed for " ++ task_name ++ ": " ++ e.msg], some e⟩

/-- One scripted `call_ai` invocation (its API environment, task,
variables and explicit provider argument). -/
structure Invocation where
  env : ApiEnv
  task : String
  vars : Dict String
  provider : Option String

/-- Run a sequence of `call_ai` invocations against one client,
threading the usage accumulator, and collect the returned results. -/
def run_calls (c : AIClient) : List Invocation → AIClient × List CallResult
  | [] => (c, [])
  | i :: rest =>
    let o := call_ai c i.env i.task i.vars i.provider
    let next := run_calls { c with usage_stats := o.stats } rest
    (next.1, o.result :: next.2)

/-- The record returned by `AIClient.get_usage_summary`.  Python rounds
the cost to 4 decimals with float semantics; over the rationals this is
modelled as round-half-up at 4 decimals. -/
structure UsageSummary where
  requests_made : ℕ
  total_tokens : ℕ
  estimated_cost_usd : ℚ
  active_provider : Option String
  available_providers : List String
deriving DecidableEq

/-- `AIClient.get_usage_summary`. -/
def get_usage_summary (c : AIClient) : UsageSummary :=
  { requests_made := c.usage_stats.requests
    total_tokens := c.usage_stats.tokens_used
    estimated_cost_usd := (round (c.usage_stats.estimated_cost * 10000) : ℤ) / 10000
    active_provider := c.active_provider
    available_providers := c.clients }

/-- A provider activates in the setup loop exactly when it is one of the
two recognized providers, its credential environment variable is set,
and its handle construction succeeds. -/
def activatable (env : String → Option String) (ctorOk : String → Bool)
    (p : String) : Bool :=
  (p == "openai" || p == "anthropic") && (cred_for env p).isSome && ctorOk p

/-- An API boundary whose live calls always raise. -/
def stubApiEnv : ApiEnv :=
  { openaiCall := fun _ => Except.error "connection refused"
    anthropicCall := fun _ => Except.error "connection refused" }

/-- An API boundary whose calls succeed with a fixed response of
3 prompt tokens, 4 completion tokens and 7 total tokens. -/
def okApiEnv : ApiEnv :=
  { openaiCall := fun _ => Except.ok ⟨"hi there", 3, 4, 7⟩
    anthropicCall := fun _ => Except.ok ⟨"hi there", 3, 4⟩ }

/-- A process environment exposing only the first provider credential. -/
def envOpenAIOnly : String → Option String :=
  fun k => if k = "OPENAI_API_KEY" then some "sk-test" else none

/-- A process environment with no provider credential at all. -/
def envNoCreds : String → Option String := fun _ => none

/-- A file read that always fails to parse. -/
def readFail : String → ReadOutcome := fun _ => ReadOutcome.err "unreadable"

/-- A client as constructed when only the first provider credential is
set, the configuration file fails to parse, and the prompts directory is
empty (see the construction equation in the C1 counterexample). -/
def clientOpenAI : AIClient :=
  { config := defaultConfig
    clients := ["openai"]
    active_provider := some "openai"
    templates := Dict.empty
    usage_stats := ⟨0, 0, 0⟩ }

/-- A template for task `t` with a literal system prompt and a user
prompt requiring the `name` variable. -/
def greetTemplate : Template :=
  { system_prompt := some [FmtPart.lit "You are helpful."]
    user_prompt := some [FmtPart.lit "Hello ", FmtPart.var "name"]
    parameters := Dict.empty }

/-- A client whose prompts directory carries exactly the template for
task `t`. -/
def clientWithTemplate : AIClient :=
  { config := defaultConfig
    clients := ["openai"]
    active_provider := some "openai"
    templates := [("t", Except.ok greetTemplate)]
    usage_stats := ⟨0, 0, 0⟩ }

/-- A scripted sequence: two calls that reach the API and succeed, and
one call whose template is absent (so it falls back). -/
def callScript : List Invocation :=
  [ { env := okApiEnv, task := "t", vars := [("name", "ada")], provider := none }
  , { env := okApiEnv, task := "missing", vars := Dict.empty, provider := none }
  , { env := okApiEnv, task := "t", vars := [("name", "bob")], provider := none } ]

/-- The task-to-complexity binding of the model-resolution example:
task `t` is tagged with the `deep` complexity. -/
def cfgDeep : Config :=
  { provider_priority := ["openai"]
    providers :=
      [ ("P",
          { default_model := some "model-default"
            models := [("deep", "model-X")]
            parameters := Dict.empty
            pricing := Dict.empty }) ]
    task_models := [("t", { complexity := some "deep" })] }

/-- Same configuration with the `deep` entry removed from the provider
model table, so resolution falls back to the default model. -/
def cfgDeepNoEntry : Config :=
  { provider_priority := ["openai"]
    providers :=
      [ ("P",
          { default_model := some "model-default"
            models := Dict.empty
            parameters := Dict.empty
            pricing := Dict.empty }) ]
    task_models := [("t", { complexity := some "deep" })] }

/-- Configuration of the parameter-layering example: the provider-model
override sets `temperature` to 0.5. -/
def cfgParams : Config :=
  { provider_priority := ["openai"]
    providers :=
      [ ("P",
          { default_model := some "m"
            models := Dict.empty
            parameters := [("m", [("temperature", PVal.num (1 / 2))])]
            pricing := Dict.empty }) ]
    task_models := Dict.empty }

/-- Template of the parameter-layering example: overrides `max_tokens`
to 800. -/
def tmplParams : Template :=
  { system_prompt := none
    user_prompt := none
    parameters := [("max_tokens", PVal.num 800)] }

/-- The complexity tag resolved for a task: the `complexity` entry of
its `task_models` record, with `standard` as the default. -/
def complexity_for (config : Config) (task : String) : String :=
  (((Dict.find? config.task_models task).getD ⟨none⟩).complexity).getD "standard"

/-- The client produced by construction when no credential is set. -/
def clientNoCreds : AIClient :=
  { config := defaultConfig
    clients := []
    active_provider := none
    templates := Dict.empty
    usage_stats := ⟨0, 0, 0⟩ }

theorem Dict.find?_merge {α : Type} (a b : Dict α) (k : String) :
    Dict.find? (Dict.merge a b) k =
      (Dict.find? b k).orElse (fun _ => Dict.find? a k) := by
  induction b with
  | nil => rfl
  | cons hd tl ih =>
    obtain ⟨k', v⟩ := hd
    by_cases h : k' = k
    · simp [Dict.merge, Dict.find?, h, Option.orElse]
    · simpa [Dict.merge, Dict.find?, h] using ih

theorem mem_addKey (keys : List String) (k q : String) :
    q ∈ addKey keys k ↔ q ∈ keys ∨ q = k := by
  unfold addKey
  by_cases h : keys.contains k
  · have hk : k ∈ keys := by simpa using h
    simp only [if_pos h]
    constructor
    · exact Or.inl
    · rintro (hq | rfl)
      · exact hq
      · exact hk
  · have h' : k ∉ keys := by simpa using h
    simp [h', List.mem_append]

theorem mem_clients_setupStep (env : String → Option String) (ctorOk : String → Bool)
    (s : SetupState) (p q : String) :
    q ∈ (setupStep env ctorOk s p).clients ↔
      q ∈ s.clients ∨ (q = p ∧ activatable env ctorOk p = true) := by
  unfold setupStep activatable cred_for
  by_cases hpo : p = "openai"
  · subst hpo
    cases henv : env "OPENAI_API_KEY" with
    | none => simp [henv]
    | some v =>
      by_cases hc : ctorOk "openai"
      · simp [henv, hc, mem_addKey]
      · simp [henv, hc]
  · by_cases hpa : p = "anthropic"
    · subst hpa
      cases henv : env "ANTHROPIC_API_KEY" with
      | none => simp [henv, hpo]
      | some v =>
        by_cases hc : ctorOk "anthropic"
        · simp [henv, hc, hpo, mem_addKey]
        · simp [henv, hc, hpo]
    · simp [hpo, hpa]

theorem active_setupStep (env : String → Option String) (ctorOk : String → Bool)
    (s : SetupState) (p : String) :
    (setupStep env ctorOk s p).active =
      match s.active with
      | some a => some a
      | none => if activatable env ctorOk p then some p else none := by
  unfold setupStep activatable cred_for
  by_cases hpo : p = "openai"
  · subst hpo
    cases henv : env "OPENAI_API_KEY" with
    | none => cases hs : s.active <;> simp [henv, hs]
    | some v =>
      by_cases hc : ctorOk "openai" <;> cases hs : s.active <;> simp [henv, hc, hs]
  · by_cases hpa : p = "anthropic"
    · subst hpa
      cases henv : env "ANTHROPIC_API_KEY" with
      | none => cases hs : s.active <;> simp [henv, hpo, hs]
      | some v =>
        by_cases hc : ctorOk "anthropic" <;> cases hs : s.active <;>
          simp [henv, hc, hpo, hs]
    · cases hs : s.active <;> simp [hpo, hpa, hs]

theorem mem_attempts_setupStep (env : String → Option String) (ctorOk : String → Bool)
    (s : SetupState) (p q : String) :
    q ∈ (setupStep env ctorOk s p).attempts →
      q ∈ s.attempts ∨ (cred_for env q).isSome = true := by
  unfold setupStep
  by_cases hpo : p = "openai"
  · subst hpo
    cases henv : env "OPENAI_API_KEY" with
    | none => exact fun h => Or.inl h
    | some v =>
      by_cases hc : ctorOk "openai" <;>
        · simp only [henv, hc]
          intro h
          rcases List.mem_append.mp h with h | h
          · exact Or.inl h
          · rcases List.mem_singleton.mp h with rfl
            right
            simp [cred_for, henv]
  · by_cases hpa : p = "anthropic"
    · subst hpa
      cases henv : env "ANTHROPIC_API_KEY" with
      | none =>
        simp only [henv, if_neg hpo, if_pos rfl]
        exact fun h => Or.inl h
      | some v =>
        by_cases hc : ctorOk "anthropic" <;>
          · simp only [henv, hc, if_neg hpo, if_pos rfl, if_true, if_false,
              Bool.false_eq_true, reduceIte]
            intro h
            rcases List.mem_append.mp h with h | h
            · exact Or.inl h
            · rcases List.mem_singleton.mp h with rfl
              right
              simp [cred_for, henv]
    · simp only [if_neg hpo, if_neg hpa]
      exact fun h => Or.inl h

theorem mem_clients_setup_foldl (env : String → Option String) (ctorOk : String → Bool)
    (l : List String) (s : SetupState) (q : String) :
    q ∈ (l.foldl (setupStep env ctorOk) s).clients ↔
      q ∈ s.clients ∨ (q ∈ l ∧ activatable env ctorOk q = true) := by
  induction l generalizing s with
  | nil => simp
  | cons p rest ih =>
    simp only [List.foldl_cons]
    rw [ih, mem_clients_setupStep]
    constructor
    · rintro ((hq | ⟨rfl, hact⟩) | ⟨hql, hact⟩)
      · exact Or.inl hq
      · exact Or.inr ⟨List.mem_cons_self _ _, hact⟩
      · exact Or.inr ⟨List.mem_cons_of_mem _ hql, hact⟩
    · rintro (hq | ⟨hql, hact⟩)
      · exact Or.inl (Or.inl hq)
      · rcases List.mem_cons.mp hql with rfl | hql
        · exact Or.inl (Or.inr ⟨rfl, hact⟩)
        · exact Or.inr ⟨hql, hact⟩

theorem active_setup_foldl (env : String → Option String) (ctorOk : String → Bool)
    (l : List String) (s : SetupState) :
    (l.foldl (setupStep env ctorOk) s).active =
      match s.active with
      | some a => some a
      | none => l.find? (activatable env ctorOk) := by
  induction l generalizing s with
  | nil => cases hs : s.active <;> simp [hs]
  | cons p rest ih =>
    simp only [List.foldl_cons]
    rw [ih, active_setupStep]
    cases hs : s.active with
    | some a => simp [hs]
    | none =>
      by_cases hact : activatable env ctorOk p
      · simp [hs, hact, List.find?_cons]
      · simp [hs, hact, List.find?_cons]

theorem mem_attempts_setup_foldl (env : String → Option String) (ctorOk : String → Bool)
    (l : List String) (s : SetupState) (q : String) :
    q ∈ (l.foldl (setupStep env ctorOk) s).attempts →
      q ∈ s.attempts ∨ (cred_for env q).isSome = true := by
  induction l generalizing s with
  | nil => exact fun h => Or.inl h
  | cons p rest ih =>
    simp only [List.foldl_cons]
    intro h
    rcases ih (setupStep env ctorOk s p) h with h' | h'
    · exact mem_attempts_setupStep env ctorOk s p q h'
    · exact Or.inr h'

theorem make_api_call_ok_usage (env : ApiEnv) (provider model : String)
    (pd : Rendered) (params : Dict PVal) (r : CallResult)
    (h : make_api_call env provider model pd params = Except.ok r) :
    ∃ u, r.usage = some u := by
  unfold make_api_call at h
  by_cases h1 : provider = "openai"
  · rw [if_pos h1] at h
    cases henv : env.openaiCall (openai_request model pd params) <;> rw [henv] at h
    · exact Except.noConfusion h
    · cases h
      exact ⟨_, rfl⟩
  · rw [if_neg h1] at h
    by_cases h2 : provider = "anthropic"
    · rw [if_pos h2] at h
      cases henv : env.anthropicCall (anthropic_request model pd params) <;>
        rw [henv] at h
      · exact Except.noConfusion h
      · cases h
        exact ⟨_, rfl⟩
    · rw [if_neg h2] at h
      exact Except.noConfusion h

theorem make_api_call_known_provider_error (env : ApiEnv) (provider model : String)
    (pd : Rendered) (params : Dict PVal) (e : PyError)
    (hp : provider = "openai" ∨ provider = "anthropic")
    (h : make_api_call env provider model pd params = Except.error e) :
    ∃ m, e = PyError.apiError m := by
  unfold make_api_call at h
  by_cases h1 : provider = "openai"
  · rw [if_pos h1] at h
    cases henv : env.openaiCall (openai_request model pd params) <;> rw [henv] at h
    · cases h
      exact ⟨_, rfl⟩
    · exact Except.noConfusion h
  · rw [if_neg h1] at h
    by_cases h2 : provider = "anthropic"
    · rw [if_pos h2] at h
      cases henv : env.anthropicCall (anthropic_request model pd params) <;>
        rw [henv] at h
      · cases h
        exact ⟨_, rfl⟩
      · exact Except.noConfusion h
    · rcases hp with rfl | rfl
      · exact absurd rfl h1
      · exact absurd rfl h2

theorem formatStr_error_keyError (f : Fmt) (vars : Dict String) (e : PyError)
    (h : formatStr f vars = Except.error e) : ∃ k, e = PyError.keyError k := by
  induction f with
  | nil => exact absurd h (by simp [formatStr])
  | cons part rest ih =>
    cases part with
    | lit s =>
      unfold formatStr at h
      cases hr : formatStr rest vars with
      | ok t => rw [hr] at h; exact absurd h (by simp [Except.map])
      | error e' =>
        rw [hr] at h
        simp only [Except.map] at h
        cases h
        exact ih hr
    | var n =>
      unfold formatStr at h
      cases hv : Dict.find? vars n with
      | some v =>
        rw [hv] at h
        cases hr : formatStr rest vars with
        | ok t => rw [hr] at h; exact absurd h (by simp [Except.map])
        | error e' =>
          rw [hr] at h
          simp only [Except.map] at h
          cases h
          exact ih hr
      | none =>
        rw [hv] at h
        cases h
        exact ⟨n, rfl⟩

theorem load_prompt_template_error_cases (store : TemplateStore) (name : String)
    (e : PyError) (h : load_prompt_template store name = Except.error e) :
    (∃ m, e = PyError.fileNotFound m) ∨ (∃ m, e = PyError.valueError m) := by
  unfold load_prompt_template at h
  split at h
  · cases h
    exact Or.inl ⟨_, rfl⟩
  · cases h
    exact Or.inr ⟨_, rfl⟩
  · exact absurd h (by simp)

theorem render_prompt_error_cases (store : TemplateStore) (name : String)
    (vars : Dict String) (e : PyError)
    (h : render_prompt store name vars = Except.error e) :
    (∃ m, e = PyError.fileNotFound m) ∨ (∃ m, e = PyError.valueError m) ∨
      (∃ k, e = PyError.keyError k) := by
  unfold render_prompt at h
  cases hl : load_prompt_template store name with
  | error e' =>
    rw [hl] at h
    simp only [Except.bind, bind] at h
    cases h
    rcases load_prompt_template_error_cases store name e hl with h' | h'
    · exact Or.inl h'
    · exact Or.inr (Or.inl h')
  | ok t =>
    rw [hl] at h
    simp only [Except.bind, bind] at h
    cases hs : formatStr (t.system_prompt.getD []) vars with
    | error e' =>
      rw [hs] at h
      simp only [Except.bind] at h
      cases h
      exact Or.inr (Or.inr (formatStr_error_keyError _ _ _ hs))
    | ok sys =>
      rw [hs] at h
      simp only [Except.bind] at h
      cases hu : formatStr (t.user_prompt.getD []) vars with
      | error e' =>
        rw [hu] at h
        simp only [Except.bind] at h
        cases h
        exact Or.inr (Or.inr (formatStr_error_keyError _ _ _ hu))
      | ok usr =>
        rw [hu] at h
        exact absurd h (by simp [Except.bind])

theorem make_api_call_error_cases (env : ApiEnv) (provider model : String)
    (pd : Rendered) (params : Dict PVal) (e : PyError)
    (h : make_api_call env provider model pd params = Except.error e) :
    (∃ m, e = PyError.apiError m) ∨
      (e = PyError.unsupportedProvider provider ∧
        provider ≠ "openai" ∧ provider ≠ "anthropic") := by
  unfold make_api_call at h
  by_cases h1 : provider = "openai"
  · rw [if_pos h1] at h
    cases henv : env.openaiCall (openai_request model pd params) <;> rw [henv] at h
    · cases h
      exact Or.inl ⟨_, rfl⟩
    · exact Except.noConfusion h
  · rw [if_neg h1] at h
    by_cases h2 : provider = "anthropic"
    · rw [if_pos h2] at h
      cases henv : env.anthropicCall (anthropic_request model pd params) <;>
        rw [henv] at h
      · cases h
        exact Or.inl ⟨_, rfl⟩
      · exact Except.noConfusion h
    · rw [if_neg h2] at h
      cases h
      exact Or.inr ⟨rfl, h1, h2⟩

theorem call_ai_body_cases (c : AIClient) (env : ApiEnv) (task : String)
    (vars : Dict String) (p : String) :
    (∃ e, call_ai_body c env task vars p = Except.error e ∧
       ((∃ m, e = PyError.fileNotFound m) ∨ (∃ m, e = PyError.valueError m) ∨
        (∃ k, e = PyError.keyError k) ∨ (∃ m, e = PyError.apiError m) ∨
        (e = PyError.unsupportedProvider p ∧ p ≠ "openai" ∧ p ≠ "anthropic"))) ∨
    call_ai_body c env task vars p = Except.ok (fallback_response task, c.usage_stats) ∨
    (∃ r u q, call_ai_body c env task vars p =
        Except.ok (r,
          ⟨c.usage_stats.requests + 1, c.usage_stats.tokens_used + u.total_tokens,
            c.usage_stats.estimated_cost + q⟩) ∧
      r.usage = some u) := by
  unfold call_ai_body
  cases hr : render_prompt c.templates task vars with
  | error e =>
    simp only [Except.bind, bind]
    refine Or.inl ⟨e, rfl, ?_⟩
    rcases render_prompt_error_cases _ _ _ _ hr with h | h | h
    · exact Or.inl h
    · exact Or.inr (Or.inl h)
    · exact Or.inr (Or.inr (Or.inl h))
  | ok pd =>
    simp only [Except.bind, bind]
    cases hm : get_model_for_task c.config c.active_provider task (some p) with
    | none => exact Or.inr (Or.inl rfl)
    | some model =>
      simp only []
      cases hmc : make_api_call env p model pd
          (resolve_call_params c.config model p pd.template) with
      | error e =>
        simp only [Except.bind]
        refine Or.inl ⟨e, rfl, ?_⟩
        rcases make_api_call_error_cases _ _ _ _ _ _ hmc with h | ⟨he, hno, hna⟩
        · exact Or.inr (Or.inr (Or.inr (Or.inl h)))
        · exact Or.inr (Or.inr (Or.inr (Or.inr ⟨he, hno, hna⟩)))
      | ok r =>
        simp only [Except.bind]
        obtain ⟨u, hu⟩ := make_api_call_ok_usage _ _ _ _ _ _ hmc
        refine Or.inr (Or.inr ⟨r, u,
          estimate_cost c.config p model u.prompt_tokens u.completion_tokens, ?_, hu⟩)
        rw [hu]

theorem call_ai_dispatch (c : AIClient) (env : ApiEnv) (task : String)
    (vars : Dict String) (provider : Option String) (p : String)
    (hp : pyOr provider c.active_provider = some p) (hne : p ≠ "")
    (hct : c.clients.contains p = true) :
    call_ai c env task vars provider =
      match call_ai_body c env task vars p with
      | Except.ok (result, stats) => ⟨result, stats, [], none⟩
      | Except.error e =>
        ⟨fallback_response task, c.usage_stats,
          ["AI call failed for " ++ task ++ ": " ++ e.msg], some e⟩ := by
  have hg : ¬ (p = "" ∨ ¬ c.clients.contains p) := by
    push_neg
    exact ⟨hne, hct⟩
  simp only [call_ai, hp]
  rw [if_neg hg]

theorem call_ai_stats_cases (c : AIClient) (env : ApiEnv) (task : String)
    (vars : Dict String) (provider : Option String) :
    ((call_ai c env task vars provider).result.usage = none ∧
      (call_ai c env task vars provider).stats = c.usage_stats) ∨
    (∃ u, (call_ai c env task vars provider).result.usage = some u ∧
      (call_ai c env task vars provider).stats.requests = c.usage_stats.requests + 1 ∧
      (call_ai c env task vars provider).stats.tokens_used =
        c.usage_stats.tokens_used + u.total_tokens) := by
  unfold call_ai
  cases hp : pyOr provider c.active_provider with
  | none => exact Or.inl ⟨rfl, rfl⟩
  | some p =>
    simp only []
    by_cases hg : p = "" ∨ ¬ c.clients.contains p
    · rw [if_pos hg]
      exact Or.inl ⟨rfl, rfl⟩
    · rw [if_neg hg]
      rcases call_ai_body_cases c env task vars p with ⟨e, hb, _⟩ | hb | ⟨r, u, q, hb, hu⟩
      · rw [hb]
        exact Or.inl ⟨rfl, rfl⟩
      · rw [hb]
        exact Or.inl ⟨rfl, rfl⟩
      · rw [hb]
        exact Or.inr ⟨u, hu, rfl, rfl⟩

theorem call_ai_fallback_stats (c : AIClient) (env : ApiEnv) (task : String)
    (vars : Dict String) (provider : Option String)
    (h : (call_ai c env task vars provider).result = fallback_response task) :
    (call_ai c env task vars provider).stats = c.usage_stats := by
  rcases call_ai_stats_cases c env task vars provider with ⟨_, hs⟩ | ⟨u, hu, _, _⟩
  · exact hs
  · rw [h] at hu
    exact absurd hu (by simp [fallback_response])

theorem run_calls_stats (c : AIClient) (L : List Invocation) :
    (run_calls c L).1.usage_stats.requests =
      c.usage_stats.requests + ((run_calls c L).2.filterMap CallResult.usage).length ∧
    (run_calls c L).1.usage_stats.tokens_used =
      c.usage_stats.tokens_used +
        ((((run_calls c L).2.filterMap CallResult.usage).map Usage.total_tokens).sum) := by
  induction L generalizing c with
  | nil => simp [run_calls]
  | cons i rest ih =>
    have h1 : (run_calls c (i :: rest)).1 =
        (run_calls { c with usage_stats := (call_ai c i.env i.task i.vars i.provider).stats }
          rest).1 := rfl
    have h2 : (run_calls c (i :: rest)).2 =
        (call_ai c i.env i.task i.vars i.provider).result ::
          (run_calls { c with usage_stats := (call_ai c i.env i.task i.vars i.provider).stats }
            rest).2 := rfl
    rw [h1, h2]
    obtain ⟨ihr, iht⟩ :=
      ih { c with usage_stats := (call_ai c i.env i.task i.vars i.provider).stats }
    simp only [] at ihr iht
    rcases call_ai_stats_cases c i.env i.task i.vars i.provider with
      ⟨hu, hs⟩ | ⟨u, hu, hr, ht⟩
    · rw [List.filterMap_cons_none hu]
      rw [ihr, iht, hs]
      exact ⟨rfl, rfl⟩
    · rw [List.filterMap_cons_some hu]
      constructor
      · rw [ihr, hr]
        simp only [List.length_cons]
        omega
      · rw [iht, ht]
        simp only [List.map_cons, List.sum_cons]
        omega

/-- C9: for every task name with no matching template file in the
prompts directory, the render operation raises the template-not-found
error (a `FileNotFoundError` naming the missing file), which is the
value returned to the caller rather than being swallowed. -/
theorem spec_c9_template_not_found :
    ∀ (store : TemplateStore) (name : String) (vars : Dict String),
      Dict.find? store name = none →
      render_prompt store name vars =
        Except.error (PyError.fileNotFound
          ("Prompt template not found: " ++ name ++ ".yml")) := by
  intro store name vars h
  unfold render_prompt load_prompt_template
  rw [h]
  rfl

/-- Witness for C9 at a concrete empty prompts directory. -/
theorem spec_c9_witness :
    render_prompt Dict.empty "release_analysis" Dict.empty =
      Except.error (PyError.fileNotFound
        "Prompt template not found: release_analysis.yml") :=
  spec_c9_template_not_found Dict.empty "release_analysis" Dict.empty rfl

/-- C6: model resolution returns no model when the (defaulted) provider
is unset or unknown; otherwise it returns the model registered for the
task complexity (the `complexity` of the task, `standard` when the task
is unconfigured), falling back to the provider default model when the
complexity has no entry. -/
theorem spec_c6_model_resolution :
    ∀ (config : Config) (active : Option String) (task : String)
      (provider : Option String),
      (pyOr provider active = none →
        get_model_for_task config active task provider = none) ∧
      (∀ p, pyOr provider active = some p → Dict.find? config.providers p = none →
        get_model_for_task config active task provider = none) ∧
      (∀ p pc, pyOr provider active = some p → p ≠ "" →
        Dict.find? config.providers p = some pc →
        (∀ m, Dict.find? pc.models (complexity_for config task) = some m →
          get_model_for_task config active task provider = some m) ∧
        (Dict.find? pc.models (complexity_for config task) = none →
          get_model_for_task config active task provider = pc.default_model)) ∧
      (Dict.find? config.task_models task = none →
        complexity_for config task = "standard") := by
  intro config active task provider
  refine ⟨?_, ?_, ?_, ?_⟩
  · intro h
    unfold get_model_for_task
    rw [h]
  · intro p hp hf
    unfold get_model_for_task
    rw [hp]
    simp only []
    by_cases he : p = ""
    · rw [if_pos he]
    · rw [if_neg he, hf]
  · intro p pc hp hne hf
    constructor
    · intro m hm
      unfold get_model_for_task
      rw [hp]
      simp only []
      rw [if_neg hne, hf]
      show (Dict.find? pc.models (complexity_for config task)).orElse
        (fun _ => pc.default_model) = some m
      rw [hm]
      rfl
    · intro hm
      unfold get_model_for_task
      rw [hp]
      simp only []
      rw [if_neg hne, hf]
      show (Dict.find? pc.models (complexity_for config task)).orElse
        (fun _ => pc.default_model) = pc.default_model
      rw [hm]
      rfl
  · intro h
    unfold complexity_for
    rw [h]
    rfl

/-- Witness for C6 on the concrete configurations of the specification
example. -/
theorem spec_c6_witness :
    get_model_for_task cfgDeep none "t" (some "P") = some "model-X" ∧
    get_model_for_task cfgDeepNoEntry none "t" (some "P") = some "model-default" := by
  constructor
  · exact ((spec_c6_model_resolution cfgDeep none "t" (some "P")).2.2.1
      "P" _ rfl (by decide) rfl).1 "model-X" rfl
  · exact ((spec_c6_model_resolution cfgDeepNoEntry none "t" (some "P")).2.2.1
      "P" _ rfl (by decide) rfl).2 rfl

/-- C7: parameter resolution layers key by key, later layers overriding
earlier ones and unspecified keys inheriting: template overrides beat
provider/model overrides, which beat the hardcoded defaults
(max_tokens 1500, temperature 0.3, timeout 30); on the specification
example the resolved parameters are max_tokens 800, temperature 0.5,
timeout 30. -/
theorem spec_c7_parameter_layering :
    (∀ (a b : Dict PVal) (k : String),
      Dict.find? (Dict.merge a b) k =
        (Dict.find? b k).orElse (fun _ => Dict.find? a k)) ∧
    (∀ (config : Config) (model provider : String) (t : Template) (k : String),
      Dict.find? (resolve_call_params config model provider t) k =
        (Dict.find? t.parameters k).orElse (fun _ =>
          (Dict.find? (provider_model_params config model provider) k).orElse (fun _ =>
            Dict.find? defaultParams k))) ∧
    (Dict.find? (resolve_call_params cfgParams "m" "P" tmplParams) "max_tokens"
        = some (PVal.num 800) ∧
      Dict.find? (resolve_call_params cfgParams "m" "P" tmplParams) "temperature"
        = some (PVal.num (1 / 2)) ∧
      Dict.find? (resolve_call_params cfgParams "m" "P" tmplParams) "timeout"
        = some (PVal.num 30)) := by
  refine ⟨fun a b k => Dict.find?_merge a b k, ?_, ?_, ?_, ?_⟩
  · intro config model provider t k
    unfold resolve_call_params get_model_parameters
    rw [Dict.find?_merge, Dict.find?_merge]
  · rfl
  · rfl
  · rfl

/-- C8: provider setup iterates the priority list, attempts handle
construction only for providers whose credential environment variable is
present, activates the first provider whose construction succeeds (later
successes never change it), lets one construction failure not abort the
rest (registry membership depends only on each provider itself), and
leaves an empty but valid registry when nothing activates. -/
theorem spec_c8_provider_registry :
    ∀ (priority : List String) (env : String → Option String) (ctorOk : String → Bool),
      (∀ p ∈ (setup_clients priority env ctorOk).attempts,
        (cred_for env p).isSome = true) ∧
      ((setup_clients priority env ctorOk).active =
        priority.find? (activatable env ctorOk)) ∧
      (∀ p, p ∈ (setup_clients priority env ctorOk).clients ↔
        p ∈ priority ∧ activatable env ctorOk p = true) ∧
      ((∀ p ∈ priority, activatable env ctorOk p = false) →
        (setup_clients priority env ctorOk).active = none ∧
        (setup_clients priority env ctorOk).clients = []) := by
  intro priority env ctorOk
  have hactive : (setup_clients priority env ctorOk).active =
      priority.find? (activatable env ctorOk) :=
    active_setup_foldl env ctorOk priority ⟨[], none, [], []⟩
  have hmem : ∀ p, p ∈ (setup_clients priority env ctorOk).clients ↔
      p ∈ priority ∧ activatable env ctorOk p = true := by
    intro p
    have h := mem_clients_setup_foldl env ctorOk priority ⟨[], none, [], []⟩ p
    simpa using h
  refine ⟨?_, hactive, hmem, ?_⟩
  · intro p hp
    rcases mem_attempts_setup_foldl env ctorOk priority ⟨[], none, [], []⟩ p hp with h | h
    · exact absurd h (List.not_mem_nil p)
    · exact h
  · intro hall
    constructor
    · rw [hactive]
      refine List.find?_eq_none.mpr ?_
      intro x hx
      simp [hall x hx]
    · refine List.eq_nil_iff_forall_not_mem.mpr ?_
      intro p hp
      rcases (hmem p).mp hp with ⟨h1, h2⟩
      rw [hall p h1] at h2
      exact Bool.noConfusion h2

/-- Witness for C8: with both credentials absent, nothing activates and
the registry is empty. -/
theorem spec_c8_witness :
    (setup_clients ["openai", "anthropic"] envNoCreds (fun _ => true)).active = none ∧
    (setup_clients ["openai", "anthropic"] envNoCreds (fun _ => true)).clients = [] :=
  (spec_c8_provider_registry ["openai", "anthropic"] envNoCreds
    (fun _ => true)).2.2.2 (by decide)

/-- C10: after setup, the handle registry holds at most the two known
provider keys and the active provider is unset or one of them (no later
operation touches either field in the embedding); since `call_ai` checks
registry membership before dispatching, the unsupported-provider
`ValueError` branch of the dispatcher is unreachable from `call_ai`. -/
theorem spec_c10_provider_invariant :
    (∀ (priority : List String) (env : String → Option String) (ctorOk : String → Bool),
      (∀ k ∈ (setup_clients priority env ctorOk).clients,
        k = "openai" ∨ k = "anthropic") ∧
      ((setup_clients priority env ctorOk).active = none ∨
        (setup_clients priority env ctorOk).active = some "openai" ∨
        (setup_clients priority env ctorOk).active = some "anthropic")) ∧
    (∀ (c : AIClient),
      (∀ k ∈ c.clients, k = "openai" ∨ k = "anthropic") →
      ∀ (env : ApiEnv) (task : String) (vars : Dict String)
        (provider : Option String) (s : String),
        (call_ai c env task vars provider).caught ≠
          some (PyError.unsupportedProvider s)) := by
  have hkey : ∀ (env : String → Option String) (ctorOk : String → Bool) (k : String),
      activatable env ctorOk k = true → k = "openai" ∨ k = "anthropic" := by
    intro env ctorOk k hact
    unfold activatable at hact
    rcases Bool.and_eq_true_iff.mp hact with ⟨h1, _⟩
    rcases Bool.and_eq_true_iff.mp h1 with ⟨h2, _⟩
    rcases Bool.or_eq_true_iff.mp h2 with h3 | h3
    · exact Or.inl (by simpa using h3)
    · exact Or.inr (by simpa using h3)
  constructor
  · intro priority env ctorOk
    have hactive : (setup_clients priority env ctorOk).active =
        priority.find? (activatable env ctorOk) :=
      active_setup_foldl env ctorOk priority ⟨[], none, [], []⟩
    constructor
    · intro k hk
      have h := (mem_clients_setup_foldl env ctorOk priority ⟨[], none, [], []⟩ k).mp hk
      rcases h with h | ⟨_, hact⟩
      · exact absurd h (List.not_mem_nil k)
      · exact hkey env ctorOk k hact
    · rw [hactive]
      cases hf : priority.find? (activatable env ctorOk) with
      | none => exact Or.inl rfl
      | some p =>
        have hact := List.find?_some hf
        rcases hkey env ctorOk p hact with rfl | rfl
        · exact Or.inr (Or.inl rfl)
        · exact Or.inr (Or.inr rfl)
  · intro c hc env task vars provider s
    unfold call_ai
    cases hp : pyOr provider c.active_provider with
    | none => simp
    | some p =>
      simp only []
      by_cases hg : p = "" ∨ ¬ c.clients.contains p
      · rw [if_pos hg]
        simp
      · rw [if_neg hg]
        have hmem : p ∈ c.clients := by
          by_contra hmemn
          exact hg (Or.inr (by simpa using hmemn))
        have hkp := hc p hmem
        rcases call_ai_body_cases c env task vars p with ⟨e, hb, hcls⟩ | hb | ⟨r, u, q, hb, hu⟩
        · rw [hb]
          simp only []
          intro heq
          have he : e = PyError.unsupportedProvider s := by
            injection heq
          subst he
          rcases hcls with ⟨m, hm⟩ | ⟨m, hm⟩ | ⟨k, hm⟩ | ⟨m, hm⟩ | ⟨_, hno, hna⟩
          · exact PyError.noConfusion hm
          · exact PyError.noConfusion hm
          · exact PyError.noConfusion hm
          · exact PyError.noConfusion hm
          · rcases hkp with rfl | rfl
            · exact hno rfl
            · exact hna rfl
        · rw [hb]
          simp
        · rw [hb]
          simp

/-- Witness for C10 on a concrete client holding only the first
provider handle. -/
theorem spec_c10_witness :
    (call_ai clientOpenAI stubApiEnv "t9" Dict.empty none).caught ≠
      some (PyError.unsupportedProvider "grok") :=
  (spec_c10_provider_invariant).2 clientOpenAI (by decide)
    stubApiEnv "t9" Dict.empty none "grok"

/-- C3: when no provider credential environment variable is set,
construction leaves the active provider unset and every `call_ai`
invocation returns, without raising, the fallback result with absent
content and model, provider `fallback`, error
`AI provider not available` and the given task name. -/
theorem spec_c3_no_credentials :
    ∀ (config_path : Option String) (wellKnownExists : Bool)
      (read : String → ReadOutcome) (env : String → Option String)
      (ctorOk : String → Bool) (templates : TemplateStore) (c : AIClient),
      env "OPENAI_API_KEY" = none → env "ANTHROPIC_API_KEY" = none →
      AIClient.init config_path wellKnownExists read env ctorOk templates =
        Except.ok c →
      c.active_provider = none ∧
      ∀ (api : ApiEnv) (task : String) (vars : Dict String)
        (provider : Option String),
        (call_ai c api task vars provider).result = fallback_response task := by
  intro config_path wellKnownExists read env ctorOk templates c ho ha hinit
  have hact : ∀ p, activatable env ctorOk p = false := by
    intro p
    unfold activatable cred_for
    by_cases h1 : p = "openai"
    · simp [h1, ho]
    · by_cases h2 : p = "anthropic"
      · simp [h1, h2, ha]
      · simp [h1, h2]
  have hsetup : ∀ l : List String,
      (setup_clients l env ctorOk).active = none ∧
      (setup_clients l env ctorOk).clients = [] := by
    intro l
    constructor
    · have h : (setup_clients l env ctorOk).active =
          l.find? (activatable env ctorOk) :=
        active_setup_foldl env ctorOk l ⟨[], none, [], []⟩
      rw [h]
      refine List.find?_eq_none.mpr ?_
      intro x _
      simp [hact x]
    · refine List.eq_nil_iff_forall_not_mem.mpr ?_
      intro p hp
      have h := (mem_clients_setup_foldl env ctorOk l ⟨[], none, [], []⟩ p).mp hp
      rcases h with h | ⟨_, h2⟩
      · exact absurd h (List.not_mem_nil p)
      · rw [hact p] at h2
        exact Bool.noConfusion h2
  unfold AIClient.init at hinit
  cases hpath : resolve_config_path config_path wellKnownExists with
  | error e =>
    rw [hpath] at hinit
    exact absurd hinit (by simp [Except.bind, bind])
  | ok path =>
    rw [hpath] at hinit
    simp only [Except.bind, bind] at hinit
    cases hinit
    refine ⟨(hsetup _).1, ?_⟩
    intro api task vars provider
    unfold call_ai
    cases hp : pyOr provider
        (setup_clients (load_config (read path)).provider_priority env ctorOk).active with
    | none => rfl
    | some p =>
      simp only []
      have hcl : (setup_clients (load_config (read path)).provider_priority
          env ctorOk).clients = [] := (hsetup _).2
      rw [if_pos (Or.inr (by rw [hcl]; simp))]

/-- Witness for C3: a concrete credential-free construction and call. -/
theorem spec_c3_witness :
    clientNoCreds.active_provider = none ∧
    (call_ai clientNoCreds stubApiEnv "t" Dict.empty none).result =
      fallback_response "t" := by
  have h := spec_c3_no_credentials (some "ai_config.yml") true readFail envNoCreds
    (fun _ => true) Dict.empty clientNoCreds rfl rfl rfl
  exact ⟨h.1, h.2 stubApiEnv "t" Dict.empty none⟩

/-- C4: when a provider is active and the pipeline reaches the live API
call, any exception raised there is caught: `call_ai` returns the
fallback result, prints one warning line containing the task name and
the exception message, and the exception does not propagate (the caught
exception is recorded, never re-raised; `call_ai` is total). -/
theorem spec_c4_api_exception_caught :
    ∀ (c : AIClient) (env : ApiEnv) (task : String) (vars : Dict String)
      (provider : Option String) (p model : String) (pd : Rendered) (msg : String),
      pyOr provider c.active_provider = some p → p ≠ "" →
      c.clients.contains p = true →
      render_prompt c.templates task vars = Except.ok pd →
      get_model_for_task c.config c.active_provider task (some p) = some model →
      make_api_call env p model pd (resolve_call_params c.config model p pd.template) =
        Except.error (PyError.apiError msg) →
      call_ai c env task vars provider =
        ⟨fallback_response task, c.usage_stats,
          ["AI call failed for " ++ task ++ ": " ++ msg],
          some (PyError.apiError msg)⟩ := by
  intro c env task vars provider p model pd msg hp hne hct hr hm hmc
  rw [call_ai_dispatch c env task vars provider p hp hne hct]
  have hbody : call_ai_body c env task vars p =
      Except.error (PyError.apiError msg) := by
    unfold call_ai_body
    rw [hr]
    simp only [Except.bind, bind]
    rw [hm]
    simp only []
    rw [hmc]
  rw [hbody]
  rfl

/-- Witness for C4: a concrete client whose API boundary raises. -/
theorem spec_c4_witness :
    call_ai clientWithTemplate stubApiEnv "t" [("name", "ada")] none =
      ⟨fallback_response "t", clientWithTemplate.usage_stats,
        ["AI call failed for t: connection refused"],
        some (PyError.apiError "connection refused")⟩ := by
  exact spec_c4_api_exception_caught clientWithTemplate stubApiEnv "t"
    [("name", "ada")] none "openai" "gpt-4o-mini"
    ⟨"You are helpful.", "Hello ada", greetTemplate⟩ "connection refused"
    rfl (by decide) rfl rfl rfl rfl

/-- Counterexample to C1 as stated: `clientOpenAI` is exactly the client
constructed when the first provider credential is set (handle
construction succeeds) and the prompts directory is empty; calling it on
a task whose template is absent does NOT propagate the
template-not-found error — the result IS the fallback result, with the
caught exception recorded by the blanket handler. -/
theorem spec_c1_counterexample :
    AIClient.init (some "ai_config.yml") true readFail envOpenAIOnly (fun _ => true)
        Dict.empty = Except.ok clientOpenAI ∧
    (call_ai clientOpenAI stubApiEnv "analyze" Dict.empty none).result =
      fallback_response "analyze" ∧
    (call_ai clientOpenAI stubApiEnv "analyze" Dict.empty none).caught =
      some (PyError.fileNotFound "Prompt template not found: analyze.yml") :=
  ⟨rfl, rfl, rfl⟩

/-- C1 (amended): when the given (or active) provider has a constructed
handle and prompt rendering raises (template file absent or a
placeholder missing from the variables), `call_ai` catches the error in
its blanket exception handler, logs `AI call failed for <task>: <err>`,
and returns the fallback result; the error does not reach the caller. -/
theorem spec_c1_amended_template_errors_to_fallback :
    ∀ (c : AIClient) (env : ApiEnv) (task : String) (vars : Dict String)
      (provider : Option String) (p : String) (e : PyError),
      pyOr provider c.active_provider = some p → p ≠ "" →
      c.clients.contains p = true →
      render_prompt c.templates task vars = Except.error e →
      call_ai c env task vars provider =
        ⟨fallback_response task, c.usage_stats,
          ["AI call failed for " ++ task ++ ": " ++ PyError.msg e], some e⟩ := by
  intro c env task vars provider p e hp hne hct hr
  rw [call_ai_dispatch c env task vars provider p hp hne hct]
  have hbody : call_ai_body c env task vars p = Except.error e := by
    unfold call_ai_body
    rw [hr]
    rfl
  rw [hbody]

/-- Witness for the amended C1, on both render failure modes: an absent
template file (TemplateNotFound) and a missing variable
(MissingVariable, a `KeyError`). -/
theorem spec_c1_witness :
    call_ai clientOpenAI okApiEnv "analyze" Dict.empty none =
      ⟨fallback_response "analyze", clientOpenAI.usage_stats,
        ["AI call failed for analyze: Prompt template not found: analyze.yml"],
        some (PyError.fileNotFound "Prompt template not found: analyze.yml")⟩ ∧
    call_ai clientWithTemplate okApiEnv "t" Dict.empty none =
      ⟨fallback_response "t", clientWithTemplate.usage_stats,
        ["AI call failed for t: \x27name\x27"],
        some (PyError.keyError "name")⟩ := by
  constructor
  · exact spec_c1_amended_template_errors_to_fallback clientOpenAI okApiEnv
      "analyze" Dict.empty none "openai" _ rfl (by decide) rfl rfl
  · exact spec_c1_amended_template_errors_to_fallback clientWithTemplate okApiEnv
      "t" Dict.empty none "openai" _ rfl (by decide) rfl rfl

/-- Counterexample to C2 as stated: at the startup state with no
explicit configuration path and the well-known configuration file
absent, construction raises `FileNotFoundError` from the path discovery
step instead of degrading to the default configuration. -/
theorem spec_c2_counterexample :
    AIClient.init none false readFail envNoCreds (fun _ => true) Dict.empty =
      Except.error (PyError.fileNotFound "AI config file not found: ai_config.yml") :=
  rfl

/-- C2 (amended): configuration reading and parsing never raises —
whenever the configuration path resolves (an explicit nonempty path was
supplied, or the well-known file exists), a file that is missing at read
time or malformed yields a constructed client carrying the hardcoded
minimal default configuration (priority `openai` then `anthropic`,
empty task table) and no exception surfaces; only the path discovery
step for an absent well-known file raises. -/
theorem spec_c2_amended_config_defaults :
    ∀ (config_path : Option String) (wellKnownExists : Bool)
      (read : String → ReadOutcome) (env : String → Option String)
      (ctorOk : String → Bool) (templates : TemplateStore) (path msg : String),
      resolve_config_path config_path wellKnownExists = Except.ok path →
      read path = ReadOutcome.err msg →
      ∃ c, AIClient.init config_path wellKnownExists read env ctorOk templates =
          Except.ok c ∧
        c.config = defaultConfig ∧
        c.config.provider_priority = ["openai", "anthropic"] ∧
        c.config.task_models = Dict.empty := by
  intro config_path wellKnownExists read env ctorOk templates path msg hpath hread
  unfold AIClient.init
  rw [hpath]
  simp only [Except.bind, bind]
  rw [hread]
  exact ⟨_, rfl, rfl, rfl, rfl⟩

/-- Witness for the amended C2: explicit path, unreadable file. -/
theorem spec_c2_witness :
    ∃ c, AIClient.init (some "custom.yml") false readFail envNoCreds (fun _ => true)
        Dict.empty = Except.ok c ∧
      c.config = defaultConfig ∧
      c.config.provider_priority = ["openai", "anthropic"] ∧
      c.config.task_models = Dict.empty :=
  spec_c2_amended_config_defaults (some "custom.yml") false readFail envNoCreds
    (fun _ => true) Dict.empty "custom.yml" "unreadable" rfl rfl

/-- C5: usage accounting counts exactly the completed API calls.
Starting from fresh statistics, after a sequence of invocations whose
successful dispatches carry normalized usages with
`total = prompt + completion`, the summary reports `requests_made` equal
to the number of successful dispatches and `total_tokens` equal to the
sum of `prompt + completion` over them; and any invocation returning the
fallback result leaves the whole accumulator (requests, tokens and
estimated cost) unchanged. -/
theorem spec_c5_usage_accounting :
    (∀ (c : AIClient) (L : List Invocation),
      c.usage_stats = ⟨0, 0, 0⟩ →
      (∀ u ∈ (run_calls c L).2.filterMap CallResult.usage,
        u.total_tokens = u.prompt_tokens + u.completion_tokens) →
      (get_usage_summary (run_calls c L).1).requests_made =
          ((run_calls c L).2.filterMap CallResult.usage).length ∧
        (get_usage_summary (run_calls c L).1).total_tokens =
          (((run_calls c L).2.filterMap CallResult.usage).map
            (fun u => u.prompt_tokens + u.completion_tokens)).sum) ∧
    (∀ (c : AIClient) (env : ApiEnv) (task : String) (vars : Dict String)
        (provider : Option String),
      (call_ai c env task vars provider).result = fallback_response task →
      (call_ai c env task vars provider).stats = c.usage_stats) := by
  constructor
  · intro c L h0 htot
    obtain ⟨hr, ht⟩ := run_calls_stats c L
    constructor
    · show (run_calls c L).1.usage_stats.requests = _
      rw [hr, h0]
      simp
    · show (run_calls c L).1.usage_stats.tokens_used = _
      rw [ht, h0, List.map_congr_left htot]
      simp
  · intro c env task vars provider h
    exact call_ai_fallback_stats c env task vars provider h

/-- Witness for C5: the scripted run makes two successful calls of
7 total tokens each and one fallback call; and a concrete fallback
invocation leaves the accumulator untouched. -/
theorem spec_c5_witness :
    (get_usage_summary (run_calls clientWithTemplate callScript).1).requests_made = 2 ∧
    (get_usage_summary (run_calls clientWithTemplate callScript).1).total_tokens = 14 ∧
    (call_ai clientOpenAI stubApiEnv "t9" Dict.empty none).stats =
      clientOpenAI.usage_stats := by
  have h := (spec_c5_usage_accounting).1 clientWithTemplate callScript rfl (by decide)
  refine ⟨?_, ?_, ?_⟩
  · rw [h.1]
    rfl
  · rw [h.2]
    rfl
  · exact (spec_c5_usage_accounting).2 clientOpenAI stubApiEnv "t9" Dict.empty none rfl
